import Mathlib

/-!
Shallow embedding of the DiaSyncMemory evolution controller (the `evo`
package) and proofs about its specification.

Conventions used throughout:
* Python `float` is modelled as `ℚ` (all arithmetic in the embedded code is
  exact: additions, subtractions, comparisons, flat constants).
* Python `int` is modelled as `ℤ`, Python `//` as `Int.fdiv`.
* Python strings are modelled as Lean `String`; character-level operations
  (substring search, first-occurrence replacement) are implemented over
  `List Char`, matching CPython semantics on code points.
* The filesystem seen by the mutation manager is modelled as a total map
  from resolved absolute paths (segment lists) to `Option String`
  (`none` = the file does not exist).
* Fallible code paths are modelled with `Except String` / `Option`.
-/

namespace DiaSync

/-! ## Character/string helpers (CPython semantics) -/

/-- Python `needle in haystack` on code-point lists (first argument is the
needle). -/
def charsContains (needle : List Char) : List Char → Bool
  | [] => needle.isEmpty
  | c :: t => needle.isPrefixOf (c :: t) || charsContains needle t

/-- Python `needle in haystack` for strings. -/
def pyContains (haystack needle : String) : Bool :=
  charsContains needle.data haystack.data

/-- Python `haystack.find(needle)` (index of first occurrence, `none` when
absent). -/
def charsFindIdx (needle : List Char) : List Char → Option Nat
  | [] => if needle.isEmpty then some 0 else none
  | c :: t =>
    if needle.isPrefixOf (c :: t) then some 0
    else (charsFindIdx needle t).map (· + 1)

/-- Python `current.replace(find, repl, 1)`: replace only the first literal
occurrence, identity when `find` is absent. -/
def charsReplaceFirst (find repl : List Char) : List Char → List Char
  | [] => if find.isEmpty then repl else []
  | c :: t =>
    if find.isPrefixOf (c :: t) then repl ++ (c :: t).drop find.length
    else c :: charsReplaceFirst find repl t

/-- Python `current.replace(find, repl, 1)` for strings. -/
def pyReplaceFirst (current find repl : String) : String :=
  (charsReplaceFirst find.data repl.data current.data).asString

/-- ASCII whitespace as matched by Python `\s` / `str.lstrip`. -/
def pyIsSpace (c : Char) : Bool :=
  c = ' ' || c = '\t' || c = '\n' || c = '\r' || c = '\x0c' || c = '\x0b'

/-- Python `text.startswith(p)` for strings. -/
def pyStartsWith (text p : String) : Bool :=
  p.data.isPrefixOf text.data

/-- Python `s.replace(find, repl)` for a single-character `find` (the only
shape the embedded code uses: `"\\"` and `"\""`); replaces every
occurrence. -/
def pyReplaceChar (find : Char) (repl : List Char) (s : String) : String :=
  (s.data.foldr (fun c acc => if c = find then repl ++ acc else c :: acc) []).asString

/-- Python `s.split(sep)` for a single-character separator (CPython
semantics: `"".split("/") == [""]`, separators at the ends produce empty
fields). -/
def splitOnChar (sep : Char) : List Char → List (List Char)
  | [] => [[]]
  | c :: t =>
    let r := splitOnChar sep t
    if c = sep then [] :: r
    else
      match r with
      | [] => [[c]]
      | h :: t2 => (c :: h) :: t2

/-- Python `s.lower()` (ASCII, as used by the judge-text markers). -/
def pyToLower (s : String) : String :=
  (s.data.map Char.toLower).asString

/-! ## Scenario model and curriculum batch selector (`evo/scenarios.py`,
`evo/models.py`) -/

/-- Embedding of `models.Scenario` (the `weights`/`metadata` payload dictionaries are
opaque data never read by the embedded operations and are omitted). -/
structure Scenario where
  id : String
  title : String
  description : String
  complexity_mode : String
  difficulty : Int
  turns : List String
  success_criteria : List String
  tags : List String
  deriving Repr, DecidableEq

/-- Embedding of `max(s.difficulty for s in scenarios)` over a non-empty pool (`0` for the
empty pool, on which the caller never evaluates it). -/
def maxDifficulty : List Scenario → Int
  | [] => 0
  | s :: rest => rest.foldl (fun m x => max m x.difficulty) s.difficulty

/-- One step of the 64-bit linear congruential generator standing in for
CPython's Mersenne-Twister stream (see `randSample`). -/
def lcgNext (x : Nat) : Nat :=
  (x * 6364136223846793005 + 1442695040888963407) % (2 ^ 64)

/-- Draw `k` elements without replacement, consuming the generator state
`st`: select an index into the remaining pool, remove it, recurse. -/
def sampleAux : Nat → Nat → List Scenario → List Scenario
  | 0, _, _ => []
  | _ + 1, _, [] => []
  | k + 1, st, p :: ps =>
    let pool := p :: ps
    let idx := st % pool.length
    pool.getD idx p :: sampleAux k (lcgNext st) (pool.eraseIdx idx)

/-- Deterministic model of CPython `random.Random(seed).sample(pool, k)`:
a sample without replacement whose order is a pure function of the seed.
The exact Mersenne-Twister stream is replaced by an LCG stream; every
property the specification claims about sampling (determinism in the seed,
sampling without replacement from the given pool) is preserved. -/
def randSample (seed : Int) (pool : List Scenario) (k : Nat) : List Scenario :=
  sampleAux k seed.natAbs pool

/-- Embedding of `scenarios.select_batch` (evo/scenarios.py:38-61). -/
def select_batch (scenarios : List Scenario) (batch_size : Int)
    (epoch seed : Int) (curriculum_enabled : Bool) : List Scenario :=
  if scenarios.isEmpty then []
  else
    let selected_pool :=
      if curriculum_enabled then
        let max_difficulty := maxDifficulty scenarios
        let stage_ceiling := min max_difficulty (1 + Int.fdiv epoch 2)
        let staged := scenarios.filter (fun s => s.difficulty ≤ stage_ceiling)
        if staged.isEmpty then scenarios else staged
      else scenarios
    if batch_size ≤ 0 || (selected_pool.length : Int) ≤ batch_size then
      selected_pool
    else randSample (seed + epoch) selected_pool batch_size.toNat

/-- The curriculum-eligible pool exactly as the specification words it:
restrict to scenarios whose difficulty is at most
`min(max difficulty in the pool, 1 + epoch // 2)`, falling back to the
unfiltered pool when the filter leaves no scenarios. -/
def specEligiblePool (pool : List Scenario) (epoch : Int) : List Scenario :=
  let ceiling := min (maxDifficulty pool) (1 + Int.fdiv epoch 2)
  let staged := pool.filter (fun s => s.difficulty ≤ ceiling)
  if staged.isEmpty then pool else staged

/-! ## Scoring model (`evo/evaluator.py`, `evo/models.py`) -/

/-- Embedding of `models.SCORE_DIMENSIONS`. -/
def SCORE_DIMENSIONS : List String :=
  ["diachronic", "synchronic", "governance", "realism", "skill_alignment"]

/-- The judge's five named dimension scores (the `dimensions` dict keyed by
`SCORE_DIMENSIONS`). -/
structure Dims where
  diachronic : ℚ
  synchronic : ℚ
  governance : ℚ
  realism : ℚ
  skill_alignment : ℚ
  deriving Repr, DecidableEq

/-- Apply `f` to every dimension value (the per-dimension penalty
deduction loop in `score_execution`). -/
def Dims.map (f : ℚ → ℚ) (d : Dims) : Dims :=
  ⟨f d.diachronic, f d.synchronic, f d.governance, f d.realism, f d.skill_alignment⟩

/-- All five dimensions set to the same value (the fallback score shape). -/
def Dims.const (q : ℚ) : Dims := ⟨q, q, q, q, q⟩

/-- A judge payload after normalization: the dict consumed by
`score_execution` via `.get` with defaults (evaluator.py:322-327). -/
structure JudgePayload where
  overall : ℚ
  dimensions : Dims
  hard_failures : List String
  violations : List String
  strengths : List String
  next_focus : List String
  confidence : ℚ
  deriving Repr, DecidableEq

/-- The probe facts read by the scoring model: `probe.get("hard_pass")`,
`probe["validate_strict"]{ok, error_count}` and
`probe["diagnose_dry_run"]{score}`.  A missing `validate_strict` dict or
`ok` key is modelled as `validate_strict_ok = false` (Python
`bool(validate.get("ok"))`); missing `error_count` / `score` keys as
`Option.none` (picking up the source defaults 1 and 0.0). -/
structure Probe where
  hard_pass : Bool
  validate_strict_ok : Bool
  validate_strict_error_count : Option Int
  diagnose_score : Option ℚ
  deriving Repr, DecidableEq

/-- Embedding of `models.ScenarioExecution` (the per-turn `RunEvents` list and the
exported-session path are never read by the embedded operations and are
omitted). -/
structure ScenarioExecution where
  scenario : Scenario
  partition : String
  epoch : Int
  memory_root : String
  artifact_dir : String
  session_id : Option String
  assistant_messages : List String
  command_trace : List String
  read_paths : List String
  session_ids : List String
  fallback_used : Bool
  fallback_only_mode : Bool
  provider_blocked : Bool
  provider_block_reasons : List String
  deriving Repr, DecidableEq

/-- Embedding of `models.ScenarioResult`. -/
structure ScenarioResult where
  scenario_id : String
  partition : String
  epoch : Int
  memory_root : String
  session_id : Option String
  hard_pass : Bool
  fitness : ℚ
  judge_score : ℚ
  dimensions : Dims
  violations : List String
  strengths : List String
  next_focus : List String
  probe : Probe
  command_trace : List String
  artifact_dir : String
  fallback_used : Bool
  provider_blocked : Bool
  provider_block_reasons : List String
  validation_confidence : ℚ
  deriving Repr, DecidableEq

/-- Embedding of `evaluator._normalize_cli_text`. -/
def normalize_cli_text (value : String) : String :=
  pyReplaceChar '"' [] (pyReplaceChar '\\' ['/'] value)

/-- Embedding of `evaluator._path_matches`. -/
def path_matches (observed required : String) : Bool :=
  (pyReplaceChar '\\' ['/'] required).data.isSuffixOf
    (pyReplaceChar '\\' ['/'] observed).data

/-- Embedding of `evaluator._is_judge_meta_violation`. -/
def is_judge_meta_violation (text : String) : Bool :=
  let lowered := pyToLower text
  ["no context", "cannot assess", "target artifact", "memory root",
   "baseline or reference", "artifact or system state"].any
    (fun marker => pyContains lowered marker)

/-- Embedding of `evaluator._is_judge_meta_focus`. -/
def is_judge_meta_focus (text : String) : Bool :=
  let lowered := pyToLower text
  ["provide memory root", "specify validation scope", "supply ledger",
   "artifact to score"].any (fun marker => pyContains lowered marker)

/-- Embedding of `evaluator._is_judge_parser_violation`. -/
def is_judge_parser_violation (text : String) : Bool :=
  let lowered := pyToLower text
  ["judge did not return machine-parseable json", "judge response unavailable",
   "judge scoring unavailable"].any (fun marker => pyContains lowered marker)

/-- The group captured by `re.search(r"--instance-id\s+\"?([^\s\"]+)", cmd)`
when the literal has just been consumed: at least one whitespace character,
an optional double quote, then a maximal non-empty run of
non-whitespace/non-quote characters. -/
def instanceIdAfterLit : List Char → Option (List Char)
  | [] => Option.none
  | c :: rest =>
    if pyIsSpace c then
      let ws := rest.dropWhile pyIsSpace
      match ws with
      | '"' :: r3 =>
        let tok := r3.takeWhile (fun ch => !(pyIsSpace ch) && ch ≠ '"')
        if tok.isEmpty then Option.none else some tok
      | _ =>
        let tok := ws.takeWhile (fun ch => !(pyIsSpace ch) && ch ≠ '"')
        if tok.isEmpty then Option.none else some tok
    else Option.none

/-- Leftmost match of `re.search(r"--instance-id\s+\"?([^\s\"]+)", ·)`. -/
def searchInstanceId : List Char → Option (List Char)
  | [] => Option.none
  | c :: rest =>
    match
      (if ("--instance-id".data.isPrefixOf (c :: rest))
       then instanceIdAfterLit ((c :: rest).drop "--instance-id".data.length)
       else Option.none) with
    | some tok => some tok
    | Option.none => searchInstanceId rest

/-- Embedding of `evaluator._has_multi_session_signature`. -/
def has_multi_session_signature (commands : List String) : Bool :=
  let starts := commands.filter (fun c => pyContains c " sync start")
  let instance_ids := (starts.filterMap (fun c => searchInstanceId c.data)).dedup
  let sync_start_count := starts.length
  if instance_ids.length ≥ 2 then true
  else decide (sync_start_count ≥ 2) && decide (instance_ids.length ≥ 1)

/-- Embedding of `turn.lstrip().startswith(("[[NEW_SESSION]]", "[NEW_SESSION]",
"@new_session"))`. -/
def startsWithNewSession (turn : String) : Bool :=
  let t := (turn.data.dropWhile pyIsSpace).asString
  pyStartsWith t "[[NEW_SESSION]]" || pyStartsWith t "[NEW_SESSION]" ||
    pyStartsWith t "@new_session"

/-- Embedding of `evaluator._machine_penalty`: the ordered machine-check penalty list and
the hydration-failure flag. -/
def machine_penalty (execution : ScenarioExecution)
    (required_skill_paths : List String) (minimum_skill_reads : Int)
    (enforce_skill_hydration : Bool) (hard_fail_missing_skills : Bool) :
    List String × Bool :=
  let normalized_root := normalize_cli_text execution.memory_root
  let memoryctl_commands :=
    execution.command_trace.filter (fun c => pyContains c "memoryctl.py")
  if memoryctl_commands.isEmpty then
    (["No memoryctl commands observed in command trace."], false)
  else
    let root_count := (memoryctl_commands.filter (fun c =>
      pyContains c "--root" &&
        pyContains (normalize_cli_text c) normalized_root)).length
    let penalties_root : List String :=
      if root_count = 0 then
        ["Memory commands did not target the scenario-specific filesystem root."]
      else []
    let joined := String.intercalate " " memoryctl_commands
    let unresolved_stop := memoryctl_commands.filter (fun c =>
      pyContains c " sync start" && !(pyContains joined " sync stop"))
    let penalties_stop : List String :=
      if unresolved_stop.isEmpty then []
      else ["Lifecycle appears incomplete: sync start without sync stop."]
    let expects_multi_session := execution.scenario.turns.enum.any
      (fun it => decide (it.1 > 0) && startsWithNewSession it.2)
    let multi_session_observed :=
      decide (execution.session_ids.dedup.length ≥ 2) ||
        has_multi_session_signature memoryctl_commands
    let penalties_session : List String :=
      if expects_multi_session && !multi_session_observed then
        ["Scenario expected multiple sessions but runner stayed in a single session."]
      else []
    let hydration : List String × Bool :=
      if enforce_skill_hydration then
        let read_paths := execution.read_paths
        let under_min : List String × Bool :=
          if (read_paths.length : Int) < max 0 minimum_skill_reads then
            (["Skill hydration read count below required minimum before execution."],
             hard_fail_missing_skills)
          else ([], false)
        let missing := required_skill_paths.filter (fun p =>
          !(read_paths.any (fun rp => path_matches rp p)))
        let missing_pen : List String × Bool :=
          if !missing.isEmpty then
            (["Missing required skill reads: " ++ String.intercalate ", " missing],
             hard_fail_missing_skills)
          else ([], false)
        (under_min.1 ++ missing_pen.1, under_min.2 || missing_pen.2)
      else ([], false)
    (penalties_root ++ penalties_stop ++ penalties_session ++ hydration.1,
     hydration.2)

/-- Embedding of `evaluator._fallback_judge_score`: the deterministic heuristic score
computed only from machine-verifiable probe facts. -/
def fallback_judge_score (execution : ScenarioExecution) (probe : Probe) :
    ℚ × Dims :=
  let validate_ok :=
    probe.validate_strict_ok && decide (probe.validate_strict_error_count.getD 1 = 0)
  let diagnose_score := probe.diagnose_score.getD 0
  let score0 : ℚ := 45
  let score1 := if validate_ok then score0 + 20 else score0
  let score2 := if diagnose_score ≥ 95 then score1 + 15 else score1
  let score3 := if !execution.read_paths.isEmpty then score2 + 8 else score2
  let root_hint :=
    (execution.command_trace.filter (fun c => pyContains c "--root")).length
  let score4 := if root_hint > 0 then score3 + 7 else score3
  let score := max 0 (min 100 score4)
  (score, Dims.const score)

/-- Embedding of `evaluator.score_execution` (evaluator.py:312-427). -/
def score_execution (execution : ScenarioExecution) (probe : Probe)
    (judge_payload : JudgePayload) (required_skill_paths : List String)
    (minimum_skill_reads : Int) (enforce_skill_hydration : Bool)
    (hard_fail_missing_skills : Bool) : ScenarioResult :=
  let dimensions := judge_payload.dimensions
  let judge_score := judge_payload.overall
  let violations := judge_payload.violations
  let strengths := judge_payload.strengths
  let next_focus := judge_payload.next_focus
  let hard_failures := judge_payload.hard_failures
  let judge_unavailable := hard_failures.contains "judge_response_not_json"
  let judge_unreliable :=
    judge_unavailable || (decide (judge_score ≤ 0) && !hard_failures.isEmpty)
  let violations :=
    if judge_unreliable then
      violations.filter (fun item =>
        !(is_judge_meta_violation item) && !(is_judge_parser_violation item))
    else violations
  let next_focus :=
    if judge_unreliable then next_focus.filter (fun item => !(is_judge_meta_focus item))
    else next_focus
  let fallback := fallback_judge_score execution probe
  let judge_score := if judge_unreliable then fallback.1 else judge_score
  let dimensions := if judge_unreliable then fallback.2 else dimensions
  let hard_failures := if judge_unreliable then [] else hard_failures
  let strengths :=
    if judge_unreliable then
      strengths ++ ["Heuristic fallback scoring maintained autonomous loop continuity."]
    else strengths
  let next_focus :=
    if judge_unreliable then
      next_focus ++ ["Restore strict JSON judge outputs to remove fallback mode."]
    else next_focus
  let validation_confidence : ℚ := 1
  let validation_confidence :=
    if judge_unreliable then min validation_confidence (6 / 10)
    else validation_confidence
  let mp := machine_penalty execution required_skill_paths minimum_skill_reads
    enforce_skill_hydration hard_fail_missing_skills
  let machine_penalty_list := mp.1
  let hydration_fail := mp.2
  let hard_pass := probe.hard_pass && hard_failures.isEmpty && !hydration_fail
  let violations := violations ++ machine_penalty_list
  let provider_penalty : ℚ := if execution.provider_blocked then 45 else 0
  let hard_pass := if execution.provider_blocked then false else hard_pass
  let validation_confidence :=
    if execution.provider_blocked then min validation_confidence (2 / 10)
    else validation_confidence
  let joined_reasons := String.intercalate ", " execution.provider_block_reasons
  let reason_text := if joined_reasons = "" then "provider_error" else joined_reasons
  let violations :=
    if execution.provider_blocked then
      violations ++
        ["Runner provider was unavailable during autonomous execution (" ++
          reason_text ++ "); evaluation cannot confirm true self-improvement behavior."]
    else violations
  let next_focus :=
    if execution.provider_blocked then
      next_focus ++
        ["Restore runner provider quota or credentials so autonomous execution can be evaluated."]
    else next_focus
  let fallback_penalty : ℚ :=
    if execution.fallback_only_mode then 35
    else if execution.fallback_used then 15 else 0
  let validation_confidence :=
    if execution.fallback_only_mode then min validation_confidence (3 / 10)
    else if execution.fallback_used then min validation_confidence (65 / 100)
    else validation_confidence
  let violations :=
    if execution.fallback_only_mode then
      violations ++
        ["Runner stayed in deterministic fallback-only mode; autonomous behavior was not exercised."]
    else if execution.fallback_used then
      violations ++ ["Runner required deterministic fallback execution for at least one turn."]
    else violations
  let next_focus :=
    if execution.fallback_only_mode then
      next_focus ++ ["Disable fallback-only mode and restore autonomous runner execution."]
    else if execution.fallback_used then
      next_focus ++ ["Reduce fallback dependency by improving contract-following behavior."]
    else next_focus
  let total_penalty := fallback_penalty + provider_penalty
  let judge_score :=
    if total_penalty > 0 then max 0 (judge_score - total_penalty) else judge_score
  let dimensions :=
    if total_penalty > 0 then dimensions.map (fun v => max 0 (v - total_penalty))
    else dimensions
  let fitness := max 0 (judge_score - 8 * (machine_penalty_list.length : ℚ))
  let fitness := if !hard_pass then 0 else fitness
  { scenario_id := execution.scenario.id
    partition := execution.partition
    epoch := execution.epoch
    memory_root := execution.memory_root
    session_id := execution.session_id
    hard_pass := hard_pass
    fitness := fitness
    judge_score := judge_score
    dimensions := dimensions
    violations := violations
    strengths := strengths
    next_focus := next_focus
    probe := probe
    command_trace := execution.command_trace
    artifact_dir := execution.artifact_dir
    fallback_used := execution.fallback_used
    provider_blocked := execution.provider_blocked
    provider_block_reasons := execution.provider_block_reasons
    validation_confidence := validation_confidence }

/-! ### Judge payload validation (`_is_valid_judge_payload`)

The raw judge output, before normalization, is an arbitrary JSON-ish
value; `PyVal` models the Python values such a payload can hold. -/

/-- A Python value as produced by parsing judge output (`null` is Python
`None`). -/
inductive PyVal where
  | null : PyVal
  | bool (b : Bool) : PyVal
  | num (q : ℚ) : PyVal
  | str (s : String) : PyVal
  | list (items : List PyVal) : PyVal
  | dict (entries : List (String × PyVal)) : PyVal

/-- Python dict lookup (`payload.get(key)`): first matching key wins; dict
keys are unique so the choice is immaterial. -/
def lookupDict (entries : List (String × PyVal)) (key : String) : Option PyVal :=
  match entries with
  | [] => Option.none
  | (k, v) :: rest => if k = key then some v else lookupDict rest key

/-- Python `float(value)` on a parsed JSON value: numbers and booleans
convert, `None`/lists/dicts raise.  Conversion of numeric strings is not
modelled (no embedded claim depends on it; the judge contract carries
numbers). -/
def pyFloat? : PyVal → Option ℚ
  | .num q => some q
  | .bool b => some (if b then 1 else 0)
  | _ => Option.none

/-- Embedding of `evaluator._is_valid_judge_payload` (evaluator.py:544-569). -/
def is_valid_judge_payload : PyVal → Bool
  | .dict entries =>
    if (lookupDict entries "overall").isNone ||
        (lookupDict entries "dimensions").isNone then false
    else
      match lookupDict entries "dimensions" with
      | some (.dict dentries) =>
        SCORE_DIMENSIONS.all (fun d =>
          match lookupDict dentries d with
          | Option.none => false
          | some .null => false
          | some v => (pyFloat? v).isSome) &&
        ["hard_failures", "violations", "strengths", "next_focus"].all (fun k =>
          match lookupDict entries k with
          | some (.list _) => true
          | _ => false)
      | _ => false
  | _ => false

/-- The replacement payload installed when no judge attempt yields a valid
payload (evaluator.py:78-87), as the raw dict. -/
def sentinelJudgeDict : PyVal :=
  .dict
    [("overall", .num 0),
     ("dimensions", .dict (SCORE_DIMENSIONS.map (fun d => (d, PyVal.num 0)))),
     ("hard_failures", .list [.str "judge_response_not_json"]),
     ("violations", .list [.str "Judge did not return machine-parseable JSON."]),
     ("strengths", .list []),
     ("next_focus", .list [.str "Improve judge prompt and output strict JSON only."]),
     ("confidence", .num 0)]

/-- The final stage of `SkillJudge.score`: an invalid payload is replaced by
the sentinel dict (evaluator.py:78-87; the bounded repair retries that may
rescue a payload earlier are external-agent calls outside the scoring
model). -/
def finalJudgePayload (parsed : PyVal) : PyVal :=
  if is_valid_judge_payload parsed then parsed else sentinelJudgeDict

/-- Typed image of `sentinelJudgeDict` under the `.get`-with-default field
extraction performed at evaluator.py:322-327. -/
def sentinelJudgePayload : JudgePayload :=
  { overall := 0
    dimensions := Dims.const 0
    hard_failures := ["judge_response_not_json"]
    violations := ["Judge did not return machine-parseable JSON."]
    strengths := []
    next_focus := ["Improve judge prompt and output strict JSON only."]
    confidence := 0 }

/-! ## Mutation manager (`evo/mutator.py`, `evo/config.py`)

The workspace filesystem is modelled as a total map from resolved absolute
paths (segment lists) to `Option String`; `none` means the file does not
exist.  Directories are implicit (`mkdir(parents=True, exist_ok=True)`
never fails and is not tracked). -/

/-- A file system: resolved absolute path segments to optional content. -/
def FS : Type := List String → Option String

/-- Point update of the filesystem (`path.write_text` /`path.unlink`). -/
def fsWrite (fs : FS) (p : List String) (v : Option String) : FS :=
  fun q => if q = p then v else fs q

/-- Embedding of `config.MutationConfig`. -/
structure MutationConfig where
  enabled : Bool := true
  max_operations : Int := 3
  allow_paths : List String := []
  deny_paths : List String := []
  require_improvement : ℚ := 1 / 2
  holdout_regression_tolerance : ℚ := 0
  deriving Repr, DecidableEq

/-- Embedding of `models.MutationOperation`. -/
structure MutationOperation where
  op : String
  path : String
  find : Option String := Option.none
  replace : Option String := Option.none
  anchor : Option String := Option.none
  text : Option String := Option.none
  content : Option String := Option.none
  deriving Repr, DecidableEq

/-- Embedding of `models.MutationProposal` (the `raw_response`/`parsed_payload` echo
fields are never read by `apply` and are omitted). -/
structure MutationProposal where
  rationale : String
  expected_effect : String
  operations : List MutationOperation
  deriving Repr, DecidableEq

/-- Embedding of `models.MutationTransaction`: backups associate a resolved path with its
pre-image (`existed` flag, content); insertion order is kept as in the
Python dict. -/
structure MutationTransaction where
  changed_paths : List (List String)
  backups : List ((List String) × Bool × String)
  errors : List String

/-- Python `str.rstrip("/")`. -/
def rstripSlashes (s : String) : String :=
  ((s.data.reverse.dropWhile (· = '/')).reverse).asString

/-- Lexical model of `(workspace_root / normalized).resolve()` under the
no-symlink assumption: `.`/empty segments vanish and `..` pops one segment
(staying at the filesystem root when nothing is left to pop). -/
def resolveSegments (base : List String) (segs : List String) : List String :=
  segs.foldl
    (fun acc seg =>
      if seg = "" || seg = "." then acc
      else if seg = ".." then acc.dropLast
      else acc ++ [seg])
    base

/-- The resolved candidate for a raw operation path: an absolute raw path
replaces the workspace root entirely (CPython `Path.__truediv__`),
otherwise it is joined onto it; then the result is normalized. -/
def resolvedCandidate (ws : List String) (raw_path : String) : List String :=
  let normalized := pyReplaceChar '\\' ['/'] raw_path
  let segs := (splitOnChar '/' normalized.data).map List.asString
  if pyStartsWith normalized "/" then resolveSegments [] segs
  else resolveSegments ws segs

/-- Embedding of `candidate.relative_to(workspace).as_posix()` (`"."` when equal). -/
def relPosix (ws candidate : List String) : String :=
  if candidate = ws then "."
  else String.intercalate "/" (candidate.drop ws.length)

/-- Shared prefix matching of `Mutator._is_allowed` / `Mutator._is_denied`:
`rel == p or rel.startswith(p + "/")` for a normalized policy prefix. -/
def matchesPolicyPaths (paths : List String) (rel_posix : String) : Bool :=
  paths.any (fun item =>
    let p := rstripSlashes (pyReplaceChar '\\' ['/'] item)
    rel_posix = p || pyStartsWith rel_posix (p ++ "/"))

/-- Embedding of `Mutator._is_allowed`. -/
def is_allowed (mutation_config : MutationConfig) (rel_posix : String) : Bool :=
  matchesPolicyPaths mutation_config.allow_paths rel_posix

/-- Embedding of `Mutator._is_denied`. -/
def is_denied (mutation_config : MutationConfig) (rel_posix : String) : Bool :=
  matchesPolicyPaths mutation_config.deny_paths rel_posix

/-- Embedding of `Mutator._resolve_and_validate` (mutator.py:328-340). -/
def resolve_and_validate (mutation_config : MutationConfig) (ws : List String)
    (raw_path : String) : Except String (List String) :=
  let candidate := resolvedCandidate ws raw_path
  if !(ws.isPrefixOf candidate) then Except.error "path escapes workspace root"
  else
    let rel := relPosix ws candidate
    if is_denied mutation_config rel then
      Except.error "path is denied by mutation policy"
    else if !(is_allowed mutation_config rel) then
      Except.error "path is outside mutation allow-list"
    else Except.ok candidate

/-- The text computed by `Mutator._apply_operation` (mutator.py:356-404):
every failing branch of the source raises before writing, and every
successful branch ends in exactly one `path.write_text(...)`; this function
carries the written text of that single write. -/
def apply_operation_text (fs : FS) (path : List String)
    (operation : MutationOperation) : Except String String :=
  if operation.op = "write_file" then
    match operation.content with
    | Option.none => Except.error "write_file requires content"
    | some content => Except.ok content
  else
    let current := (fs path).getD ""
    if operation.op = "replace_text" then
      match operation.find, operation.replace with
      | some find, some repl =>
        if !(pyContains current find) then Except.error "find text not found"
        else Except.ok (pyReplaceFirst current find repl)
      | _, _ => Except.error "replace_text requires find and replace"
    else if operation.op = "insert_after" then
      match operation.anchor, operation.text with
      | some anchor, some text =>
        match charsFindIdx anchor.data current.data with
        | Option.none => Except.error "anchor not found"
        | some index =>
          let position := index + anchor.data.length
          Except.ok ((current.data.take position ++ text.data ++
            current.data.drop position).asString)
      | _, _ => Except.error "insert_after requires anchor and text"
    else if operation.op = "insert_before" then
      match operation.anchor, operation.text with
      | some anchor, some text =>
        match charsFindIdx anchor.data current.data with
        | Option.none => Except.error "anchor not found"
        | some index =>
          Except.ok ((current.data.take index ++ text.data ++
            current.data.drop index).asString)
      | _, _ => Except.error "insert_before requires anchor and text"
    else if operation.op = "append_text" then
      match operation.text with
      | some text => Except.ok (current ++ text)
      | Option.none => Except.error "append_text requires text"
    else Except.error ("unsupported mutation operation: " ++ operation.op)

/-- Embedding of `Mutator._apply_operation`: on success the single write is applied to
the filesystem, on failure nothing is written. -/
def apply_operation (fs : FS) (path : List String)
    (operation : MutationOperation) : Except String FS :=
  match apply_operation_text fs path operation with
  | Except.error exc => Except.error exc
  | Except.ok text => Except.ok (fsWrite fs path (some text))

/-- Does the transaction already hold a backup for `p`
(`path not in transaction.backups`)? -/
def backupHasPath (backups : List ((List String) × Bool × String))
    (p : List String) : Bool :=
  backups.any (fun e => e.1 = p)

/-- Embedding of `Mutator.rollback` (mutator.py:273-279): restore the pre-image of every
backed-up path that existed, delete every one that did not. -/
def rollbackBackups (fs : FS) : List ((List String) × Bool × String) → FS
  | [] => fs
  | (p, existed, content) :: rest =>
    rollbackBackups (fsWrite fs p (if existed then some content else Option.none)) rest

/-- Embedding of `Mutator.rollback` on a transaction. -/
def rollback (fs : FS) (transaction : MutationTransaction) : FS :=
  rollbackBackups fs transaction.backups

/-- First touch of a path: take exactly one pre-image backup per distinct
path (`if path not in transaction.backups`, mutator.py:258-262). -/
def txnBackupStep (transaction : MutationTransaction) (fs : FS)
    (path : List String) : MutationTransaction :=
  if backupHasPath transaction.backups path then transaction
  else { transaction with
         backups := transaction.backups ++
           [(path, (fs path).isSome, (fs path).getD "")] }

/-- Record a changed path once (`if path not in transaction.changed_paths`,
mutator.py:264-265). -/
def txnMarkChanged (transaction : MutationTransaction)
    (path : List String) : MutationTransaction :=
  if path ∈ transaction.changed_paths then transaction
  else { transaction with changed_paths := transaction.changed_paths ++ [path] }

/-- Embedding of `transaction.errors.append(f"{operation.path}: {exc}")`
(mutator.py:267). -/
def txnAddError (transaction : MutationTransaction) (msg : String) :
    MutationTransaction :=
  { transaction with errors := transaction.errors ++ [msg] }

/-- The operation walk of `Mutator.apply` (mutator.py:252-271): validate the
path, take one pre-image backup per distinct path on first touch, execute
the operation; on any failure record the error, roll back and stop. -/
def applyOps (mutation_config : MutationConfig) (ws : List String) :
    FS → MutationTransaction → List MutationOperation → FS × MutationTransaction
  | fs, transaction, [] => (fs, transaction)
  | fs, transaction, operation :: rest =>
    match resolve_and_validate mutation_config ws operation.path with
    | Except.error exc =>
      let t := txnAddError transaction (operation.path ++ ": " ++ exc)
      (rollback fs t, t)
    | Except.ok path =>
      let t1 := txnBackupStep transaction fs path
      match apply_operation fs path operation with
      | Except.error exc =>
        let t := txnAddError t1 (operation.path ++ ": " ++ exc)
        (rollback fs t, t)
      | Except.ok fs' =>
        applyOps mutation_config ws fs' (txnMarkChanged t1 path) rest

/-- Embedding of `Mutator.apply`. -/
def apply (mutation_config : MutationConfig) (ws : List String)
    (proposal : MutationProposal) (fs : FS) : FS × MutationTransaction :=
  applyOps mutation_config ws fs ⟨[], [], []⟩ proposal.operations

/-- Every backup entry records the pre-apply state of its path. -/
def BackupFaithful (fs0 : FS) (backups : List ((List String) × Bool × String)) :
    Prop :=
  ∀ e ∈ backups, e.2.1 = (fs0 e.1).isSome ∧ e.2.2 = (fs0 e.1).getD ""

/-- Every path without a backup still holds its pre-apply content. -/
def UntouchedOutside (fs0 fs : FS)
    (backups : List ((List String) × Bool × String)) : Prop :=
  ∀ q, backupHasPath backups q = false → fs q = fs0 q

/-! ## Decision engine and stop conditions (`evo/orchestrator.py`,
`evo/config.py`) -/

/-- Embedding of `config.ObjectiveGateConfig`. -/
structure ObjectiveGateConfig where
  min_dimension_improvement : ℚ := 1 / 2
  max_dimension_regression : ℚ := 1
  min_fallback_reduction : ℚ := 1 / 20
  max_fallback_increase : ℚ := 0
  require_objective_gain : Bool := true
  stop_when_provider_blocked : Bool := true
  provider_blocked_stop_rate : ℚ := 1
  provider_blocked_grace_snapshots : Int := 1
  continue_on_provider_blocked : Bool := true
  allow_provisional_acceptance : Bool := true
  max_provisional_accepts_per_run : Int := 3
  min_failure_alignment_score : ℚ := 8 / 100
  provisional_confirm_min_validation_confidence : ℚ := 85 / 100
  provisional_confirm_min_hard_pass_rate : ℚ := 1
  provisional_confirm_max_provider_blocked_rate : ℚ := 0
  deriving Repr, DecidableEq

/-- Embedding of `config.RuntimeLaneConfig`. -/
structure RuntimeLaneConfig where
  enabled : Bool := true
  paths : List String := [".opencode/skills/diasync-memory/scripts/memoryctl.py"]
  extra_gate_commands : List String := []
  force_full_evaluation : Bool := true
  min_improvement : ℚ := 1
  deriving Repr, DecidableEq

/-- Embedding of `models.EvaluationSnapshot`; of the `summary` dict only its
`objective_metrics` sub-dict is ever read by the decision engine, so the
summary is modelled as that metric map. -/
structure EvaluationSnapshot where
  epoch : Int
  label : String
  train_score : ℚ
  holdout_score : ℚ
  hard_pass_rate : ℚ
  scenario_results : List ScenarioResult
  summary_objective_metrics : List (String × ℚ)
  deriving Repr, DecidableEq

/-- Python `metrics.get(key, default)` on a string-keyed float dict. -/
def mget (m : List (String × ℚ)) (key : String) (d : ℚ) : ℚ :=
  match m with
  | [] => d
  | (k, v) :: rest => if k = key then v else mget rest key d

/-- Python `metrics[key] = v` on a string-keyed float dict (replace the
first matching key in place, append otherwise). -/
def mset : List (String × ℚ) → String → ℚ → List (String × ℚ)
  | [], key, v => [(key, v)]
  | (k, w) :: rest, key, v =>
    if k = key then (key, v) :: rest else (k, w) :: mset rest key v

/-- Dimension score by `SCORE_DIMENSIONS` name
(`item.dimensions.get(dimension, 0.0)`). -/
def Dims.get (d : Dims) : String → ℚ
  | "diachronic" => d.diachronic
  | "synchronic" => d.synchronic
  | "governance" => d.governance
  | "realism" => d.realism
  | "skill_alignment" => d.skill_alignment
  | _ => 0

/-- Embedding of `orchestrator._objective_metrics` (orchestrator.py:1987-2042). -/
def objective_metrics (results : List ScenarioResult) : List (String × ℚ) :=
  if results.isEmpty then
    [("hard_pass_rate", 0), ("validate_clean_rate", 0), ("fallback_usage_rate", 0),
     ("effective_autonomy_rate", 0), ("provider_blocked_rate", 0),
     ("validation_confidence_mean", 0), ("memory_correctness_score", 0),
     ("core_complexity_mean", 0)] ++
      SCORE_DIMENSIONS.map (fun dimension => (dimension ++ "_mean", (0 : ℚ)))
  else
    let total : ℚ := results.length
    let hard_count : ℚ := (results.filter (fun item => item.hard_pass)).length
    let fallback_count : ℚ := (results.filter (fun item => item.fallback_used)).length
    let provider_blocked_count : ℚ :=
      (results.filter (fun item => item.provider_blocked)).length
    let confidence_total : ℚ := (results.map (fun item => item.validation_confidence)).sum
    let validate_clean_count : ℚ := (results.filter (fun item =>
      item.probe.validate_strict_ok &&
        decide (item.probe.validate_strict_error_count.getD 1 = 0))).length
    let metrics := [("hard_pass_rate", hard_count / total),
                    ("validate_clean_rate", validate_clean_count / total),
                    ("fallback_usage_rate", fallback_count / total),
                    ("provider_blocked_rate", provider_blocked_count / total),
                    ("validation_confidence_mean", confidence_total / total)]
    let metrics := mset metrics "effective_autonomy_rate"
      (max 0 (1 - mget metrics "fallback_usage_rate" 0))
    let metrics := SCORE_DIMENSIONS.foldl
      (fun m dimension =>
        mset m (dimension ++ "_mean")
          (((results.map (fun item => item.dimensions.get dimension)).sum) / total))
      metrics
    let metrics := mset metrics "core_complexity_mean"
      ((mget metrics "diachronic_mean" 0 + mget metrics "synchronic_mean" 0) / 2)
    let metrics := mset metrics "memory_correctness_score"
      (100 * (6 / 10 * mget metrics "hard_pass_rate" 0 +
        4 / 10 * mget metrics "validate_clean_rate" 0))
    metrics

/-- The dict returned by `orchestrator._build_objective_progress`, with its
decision-relevant entries as typed fields. -/
structure ObjectiveProgress where
  baseline : List (String × ℚ)
  candidate : List (String × ℚ)
  delta : List (String × ℚ)
  dimension_floor_ok : Bool
  dimension_floor_violations : List String
  dimension_gain_metrics : List String
  fallback_gate_ok : Bool
  fallback_gain : Bool
  provider_block_gate_ok : Bool
  provider_block_gain : Bool
  correctness_gain : Bool
  policy_gain : Bool
  has_objective_gain : Bool
  deriving Repr, DecidableEq

/-- Embedding of `orchestrator._build_objective_progress` (orchestrator.py:2045-2150). -/
def build_objective_progress (baseline candidate : EvaluationSnapshot)
    (min_dimension_improvement max_dimension_regression
      min_fallback_reduction max_fallback_increase : ℚ) : ObjectiveProgress :=
  let baseline_metrics := baseline.summary_objective_metrics.foldl
    (fun m kv => mset m kv.1 kv.2) (objective_metrics baseline.scenario_results)
  let candidate_metrics := candidate.summary_objective_metrics.foldl
    (fun m kv => mset m kv.1 kv.2) (objective_metrics candidate.scenario_results)
  let tracked_metrics := ["diachronic_mean", "synchronic_mean", "skill_alignment_mean",
    "skill_policy_score", "memory_correctness_score", "validation_confidence_mean",
    "fallback_usage_rate", "effective_autonomy_rate", "provider_blocked_rate"]
  let deltas := tracked_metrics.map (fun metric =>
    (metric, mget candidate_metrics metric 0 - mget baseline_metrics metric 0))
  let core_dimension_metrics := ["diachronic_mean", "synchronic_mean", "skill_alignment_mean"]
  let dimension_floor_violations := core_dimension_metrics.filter (fun metric =>
    decide (mget deltas metric 0 < -max_dimension_regression))
  let dimension_gain_metrics := core_dimension_metrics.filter (fun metric =>
    decide (mget deltas metric 0 ≥ min_dimension_improvement))
  let eps : ℚ := 1 / 1000000000
  let fallback_delta := mget deltas "fallback_usage_rate" 0
  let fallback_gate_ok := decide (fallback_delta ≤ max_fallback_increase + eps)
  let fallback_gain := decide (fallback_delta ≤ -(min_fallback_reduction - eps))
  let provider_block_delta := mget deltas "provider_blocked_rate" 0
  let provider_block_gate_ok := decide (provider_block_delta ≤ eps)
  let provider_block_gain := decide (provider_block_delta < -eps)
  let correctness_gain :=
    decide (mget deltas "memory_correctness_score" 0 ≥ min_dimension_improvement)
  let policy_gain :=
    decide (mget deltas "skill_policy_score" 0 ≥ min_dimension_improvement) &&
      decide (mget candidate_metrics "fallback_usage_rate" 0 < 1) &&
      decide (mget candidate_metrics "provider_blocked_rate" 0 ≤ 0)
  let has_objective_gain := !dimension_gain_metrics.isEmpty || fallback_gain ||
    provider_block_gain || correctness_gain || policy_gain
  { baseline := baseline_metrics
    candidate := candidate_metrics
    delta := deltas
    dimension_floor_ok := dimension_floor_violations.isEmpty
    dimension_floor_violations := dimension_floor_violations
    dimension_gain_metrics := dimension_gain_metrics
    fallback_gate_ok := fallback_gate_ok
    fallback_gain := fallback_gain
    provider_block_gate_ok := provider_block_gate_ok
    provider_block_gain := provider_block_gain
    correctness_gain := correctness_gain
    policy_gain := policy_gain
    has_objective_gain := has_objective_gain }

/-- Embedding of `models.Decision`. -/
structure Decision where
  accepted : Bool
  reason : String
  candidate_train_score : ℚ
  candidate_holdout_score : ℚ
  baseline_train_score : ℚ
  baseline_holdout_score : ℚ
  candidate_hard_pass_rate : ℚ
  objective_progress : ObjectiveProgress
  provisional : Bool := false
  deriving Repr, DecidableEq

/-- The entries of the candidate-delta analysis dict read by the decision
engine (`candidate_delta.get(...)` in `_decide` / `_decide_degraded`). -/
structure CandidateDelta where
  has_required_evolution_diff : Bool
  required_hydration_paths_touched : Int
  failure_alignment_score : ℚ
  deriving Repr, DecidableEq

/-- The slice of `EvolutionConfig` read by the decision engine. -/
structure DecisionConfig where
  objectives : ObjectiveGateConfig
  mutation : MutationConfig
  runtime_lane : RuntimeLaneConfig
  deriving Repr, DecidableEq

/-- Embedding of `EvolutionOrchestrator._decide_degraded` (orchestrator.py:1269-1396). -/
def decide_degraded (config : DecisionConfig)
    (baseline candidate : EvaluationSnapshot) (candidate_delta : CandidateDelta)
    (objective_progress : ObjectiveProgress) (provisional_accepts : Int) : Decision :=
  let base : Decision :=
    { accepted := false
      reason := ""
      candidate_train_score := candidate.train_score
      candidate_holdout_score := candidate.holdout_score
      baseline_train_score := baseline.train_score
      baseline_holdout_score := baseline.holdout_score
      candidate_hard_pass_rate := candidate.hard_pass_rate
      objective_progress := objective_progress
      provisional := true }
  if provisional_accepts ≥ config.objectives.max_provisional_accepts_per_run then
    { base with reason := "provisional acceptance budget exhausted for this run" }
  else if !candidate_delta.has_required_evolution_diff then
    { base with reason := "candidate has no meaningful skill/runtime diff" }
  else if candidate_delta.required_hydration_paths_touched ≤ 0 then
    { base with reason := "candidate did not modify actively hydrated skill surfaces" }
  else if candidate_delta.failure_alignment_score <
      config.objectives.min_failure_alignment_score then
    { base with
      reason := "candidate did not align sufficiently with observed failure clusters" }
  else if !objective_progress.fallback_gate_ok then
    { base with reason := "candidate increased fallback dependency" }
  else if !objective_progress.provider_block_gate_ok then
    { base with reason := "candidate increased provider-blocked executions" }
  else if !objective_progress.dimension_floor_ok then
    { base with reason := "candidate regressed core complexity dimensions" }
  else if config.objectives.require_objective_gain &&
      !(objective_progress.has_objective_gain ||
        decide (candidate_delta.failure_alignment_score ≥
          config.objectives.min_failure_alignment_score)) then
    { base with reason := "candidate did not improve objective signals in degraded mode" }
  else
    { base with
      accepted := true
      reason := "provisional acceptance under provider-blocked degraded mode" }

/-- Embedding of `EvolutionOrchestrator._decide` (orchestrator.py:1110-1267; the source
method name starts with an underscore, dropped here). -/
def decide_outcome (config : DecisionConfig)
    (baseline candidate : EvaluationSnapshot) (runtime_touched : Bool)
    (candidate_delta : CandidateDelta) (degraded_provider_mode : Bool)
    (provisional_accepts : Int) : Decision :=
  let objective_progress := build_objective_progress baseline candidate
    config.objectives.min_dimension_improvement
    config.objectives.max_dimension_regression
    config.objectives.min_fallback_reduction
    config.objectives.max_fallback_increase
  let base : Decision :=
    { accepted := false
      reason := ""
      candidate_train_score := candidate.train_score
      candidate_holdout_score := candidate.holdout_score
      baseline_train_score := baseline.train_score
      baseline_holdout_score := baseline.holdout_score
      candidate_hard_pass_rate := candidate.hard_pass_rate
      objective_progress := objective_progress }
  if degraded_provider_mode && config.objectives.allow_provisional_acceptance then
    decide_degraded config baseline candidate candidate_delta objective_progress
      provisional_accepts
  else if !candidate_delta.has_required_evolution_diff then
    { base with reason := "candidate has no meaningful skill/runtime diff" }
  else if !objective_progress.fallback_gate_ok then
    { base with reason := "candidate increased fallback dependency" }
  else if !objective_progress.provider_block_gate_ok then
    { base with reason := "candidate increased provider-blocked executions" }
  else if !objective_progress.dimension_floor_ok then
    { base with reason := "candidate regressed core complexity dimensions" }
  else if candidate.hard_pass_rate < 1 then
    { base with reason := "candidate failed hard memory integrity gates" }
  else if candidate.holdout_score <
      baseline.holdout_score - config.mutation.holdout_regression_tolerance then
    { base with reason := "candidate regressed holdout score" }
  else if config.objectives.require_objective_gain &&
      !objective_progress.has_objective_gain then
    { base with reason := "candidate did not improve core objective metrics" }
  else
    let required_delta :=
      if runtime_touched then config.runtime_lane.min_improvement
      else config.mutation.require_improvement
    let train_delta := candidate.train_score - baseline.train_score
    let holdout_delta := candidate.holdout_score - baseline.holdout_score
    if train_delta ≥ required_delta || holdout_delta ≥ required_delta then
      { base with
        accepted := true
        reason := "candidate improved score while preserving hard gates" }
    else if objective_progress.has_objective_gain then
      { base with
        accepted := true
        reason := "candidate improved core objective metrics while preserving hard gates" }
    else
      { base with reason := "candidate did not improve enough" }

/-- The slice of `EvolutionConfig` read by `_stop_reason`. -/
structure StopConfig where
  continuous : Bool
  max_epochs : Int
  max_wall_seconds : Int
  max_stagnant_epochs : Int
  deriving Repr, DecidableEq

/-- Embedding of `EvolutionOrchestrator._stop_reason` (orchestrator.py:1646-1668).
`stop_file_exists` models `self._stop_file_exists()` and `elapsed` models
`int(time.monotonic() - self.started_monotonic)`. -/
def stop_reason (config : StopConfig) (stop_file_exists : Bool) (elapsed : Int)
    (epoch stagnant_epochs : Int) : String :=
  if !config.continuous && config.max_epochs ≤ 0 && epoch > 0 then
    "max-epochs-reached"
  else if !config.continuous && config.max_epochs > 0 && epoch > config.max_epochs then
    "max-epochs-reached"
  else if stop_file_exists then "stop-file-triggered"
  else if config.max_wall_seconds > 0 && elapsed ≥ config.max_wall_seconds then
    "max-wall-seconds-reached"
  else if config.max_stagnant_epochs > 0 &&
      stagnant_epochs ≥ config.max_stagnant_epochs then
    "max-stagnant-epochs-reached"
  else if config.continuous && config.max_epochs > 0 && epoch > config.max_epochs then
    "max-epochs-reached"
  else ""

/-- The stop-reason precedence as the amended specification words it: the
non-continuous epoch cap first, then the explicit stop signal, then the
wall-clock budget, then the stagnant-epoch cap, then the continuous-mode
epoch cap. -/
def specStopReasonOrder (config : StopConfig) (stop_file_exists : Bool)
    (elapsed : Int) (epoch stagnant_epochs : Int) : String :=
  let epoch_cap_hit :=
    (decide (config.max_epochs ≤ 0) && decide (epoch > 0)) ||
      (decide (config.max_epochs > 0) && decide (epoch > config.max_epochs))
  if !config.continuous && epoch_cap_hit then "max-epochs-reached"
  else if stop_file_exists then "stop-file-triggered"
  else if config.max_wall_seconds > 0 && elapsed ≥ config.max_wall_seconds then
    "max-wall-seconds-reached"
  else if config.max_stagnant_epochs > 0 &&
      stagnant_epochs ≥ config.max_stagnant_epochs then
    "max-stagnant-epochs-reached"
  else if config.continuous && config.max_epochs > 0 && epoch > config.max_epochs then
    "max-epochs-reached"
  else ""

/-! ## Concrete fixtures used by witnesses -/

/-- Workspace root fixture. -/
def wsFix : List String := ["ws"]

/-- Mutation policy fixture: `notes.md` is allow-listed, `locked` denied. -/
def cfgFix : MutationConfig :=
  { allow_paths := ["notes.md"], deny_paths := ["locked"] }

/-- Filesystem fixture: a single existing file `ws/notes.md`. -/
def fsFix : FS :=
  fun q => if q = ["ws", "notes.md"] then some "old content" else Option.none

/-- Scenario fixture with a given id and difficulty. -/
def scenarioFix (id : String) (difficulty : Int) : Scenario :=
  { id := id, title := "", description := "", complexity_mode := "mixed",
    difficulty := difficulty, turns := [], success_criteria := [], tags := [] }

/-- Pool fixture with difficulties `[1, 2, 3, 4, 5]`. -/
def poolFix : List Scenario :=
  [scenarioFix "s1" 1, scenarioFix "s2" 2, scenarioFix "s3" 3,
   scenarioFix "s4" 4, scenarioFix "s5" 5]

/-- Execution fixture: a quiet run with no commands and no failure flags. -/
def execFix : ScenarioExecution :=
  { scenario := scenarioFix "sc" 1, partition := "train", epoch := 0,
    memory_root := "root", artifact_dir := "a", session_id := Option.none,
    assistant_messages := [], command_trace := [], read_paths := [],
    session_ids := [], fallback_used := false, fallback_only_mode := false,
    provider_blocked := false, provider_block_reasons := [] }

/-- Execution fixture with the provider blocked. -/
def execBlockedFix : ScenarioExecution := { execFix with provider_blocked := true }

/-- Probe fixture: clean validation, passing hard gate. -/
def probeFix : Probe :=
  { hard_pass := true, validate_strict_ok := true,
    validate_strict_error_count := some 0, diagnose_score := some 100 }

/-- Probe fixture failing the hard gate. -/
def probeFailFix : Probe := { probeFix with hard_pass := false }

/-- Judge payload fixture: a clean, reliable payload. -/
def payloadFix : JudgePayload :=
  { overall := 80, dimensions := Dims.const 80, hard_failures := [],
    violations := [], strengths := [], next_focus := [], confidence := 8 / 10 }

/-- Snapshot fixture with a given holdout score, a perfect hard-pass rate
and no scenario results. -/
def snapFix (holdout : ℚ) : EvaluationSnapshot :=
  { epoch := 0, label := "baseline", train_score := 0, holdout_score := holdout,
    hard_pass_rate := 1, scenario_results := [], summary_objective_metrics := [] }

/-- Decision-engine configuration fixture: zero regression tolerances. -/
def decisionCfgFix : DecisionConfig :=
  { objectives := { max_dimension_regression := 0, max_fallback_increase := 0 }
    mutation := { holdout_regression_tolerance := 0 }
    runtime_lane := {} }

/-- Candidate-delta fixture: a meaningful diff is present. -/
def deltaFix : CandidateDelta :=
  { has_required_evolution_diff := true, required_hydration_paths_touched := 1,
    failure_alignment_score := 1 }

/-- Proposal fixture: one `write_file` on the allow-listed `notes.md`. -/
def propWriteFix : MutationProposal :=
  ⟨"r", "e", [{ op := "write_file", path := "notes.md", content := some "new" }]⟩

/-- Operation fixture: a `write_file` whose path escapes the workspace. -/
def opEscapeFix : MutationOperation :=
  { op := "write_file", path := "../etc/passwd", content := some "x" }

/-- Operation fixture: a `replace_text` whose find string is absent. -/
def opReplaceFix : MutationOperation :=
  { op := "replace_text", path := "notes.md", find := some "missing",
    replace := some "x" }

lemma sampleAux_subset (k : Nat) (st : Nat) (pool : List Scenario) :
    ∀ s ∈ sampleAux k st pool, s ∈ pool := by
  induction k generalizing st pool with
  | zero => simp [sampleAux]
  | succ k ih =>
    intro s hs
    cases pool with
    | nil => simp [sampleAux] at hs
    | cons p ps =>
      simp only [sampleAux, List.mem_cons] at hs
      rcases hs with h | h
      · subst h
        rw [List.getD_eq_getElem _ _ (Nat.mod_lt _ (by simp))]
        exact List.getElem_mem _
      · exact ((p :: ps).eraseIdx_sublist _).subset (ih _ _ s h)

/-! ### Rollback correctness lemmas -/

lemma fsWrite_self (fs : FS) (p : List String) (v : Option String) :
    fsWrite fs p v p = v := by
  simp [fsWrite]

lemma fsWrite_other (fs : FS) (p q : List String) (v : Option String)
    (h : q ≠ p) : fsWrite fs p v q = fs q := by
  simp [fsWrite, h]

lemma optionEtaIf (o : Option String) :
    (if o.isSome then some (o.getD "") else Option.none) = o := by
  cases o <;> rfl

lemma backupHasPath_nil (q : List String) : backupHasPath [] q = false := rfl

lemma backupHasPath_cons (e : (List String) × Bool × String)
    (rest : List ((List String) × Bool × String)) (q : List String) :
    backupHasPath (e :: rest) q = (decide (e.1 = q) || backupHasPath rest q) := by
  simp [backupHasPath]

lemma backupHasPath_append (bs₁ bs₂ : List ((List String) × Bool × String))
    (q : List String) :
    backupHasPath (bs₁ ++ bs₂) q = (backupHasPath bs₁ q || backupHasPath bs₂ q) := by
  simp [backupHasPath]

/-- Rollback restores the pre-transaction filesystem whenever the backups
faithfully record it and only backed-up paths were touched. -/
lemma rollbackBackups_restores (fs0 : FS) :
    ∀ (bs : List ((List String) × Bool × String)) (fs : FS),
      BackupFaithful fs0 bs → UntouchedOutside fs0 fs bs →
      ∀ q, rollbackBackups fs bs q = fs0 q := by
  intro bs
  induction bs with
  | nil =>
    intro fs _ hout q
    exact hout q (backupHasPath_nil q)
  | cons e rest ih =>
    intro fs hfaith hout q
    obtain ⟨p, existed, content⟩ := e
    have he1 : existed = (fs0 p).isSome := (hfaith _ (List.mem_cons_self _ _)).1
    have he2 : content = (fs0 p).getD "" := (hfaith _ (List.mem_cons_self _ _)).2
    have hwrite : (if existed then some content else Option.none) = fs0 p := by
      rw [he1, he2]
      exact optionEtaIf (fs0 p)
    show rollbackBackups (fsWrite fs p (if existed then some content else Option.none)) rest q = fs0 q
    rw [hwrite]
    apply ih
    · intro e' he'
      exact hfaith e' (List.mem_cons_of_mem _ he')
    · intro q' hq'
      by_cases hqp : q' = p
      · subst hqp
        exact fsWrite_self fs q' (fs0 q')
      · rw [fsWrite_other fs p q' _ hqp]
        apply hout
        rw [backupHasPath_cons, hq']
        simp [hqp, Ne.symm hqp]

/-- A successful `_apply_operation` writes only at its target path. -/
lemma apply_operation_writes_only (fs : FS) (path : List String)
    (operation : MutationOperation) (fs' : FS)
    (h : apply_operation fs path operation = Except.ok fs') :
    ∀ q, q ≠ path → fs' q = fs q := by
  intro q hq
  unfold apply_operation at h
  cases htext : apply_operation_text fs path operation with
  | error exc => rw [htext] at h; cases h
  | ok text =>
    rw [htext] at h
    cases h
    exact fsWrite_other fs path q _ hq

lemma txnBackupStep_faithful (fs0 : FS) (t : MutationTransaction) (fs : FS)
    (path : List String) (h1 : BackupFaithful fs0 t.backups)
    (h2 : UntouchedOutside fs0 fs t.backups) :
    BackupFaithful fs0 (txnBackupStep t fs path).backups := by
  unfold txnBackupStep
  by_cases hb : backupHasPath t.backups path = true
  · simpa [hb] using h1
  · rw [if_neg (by simp [hb])]
    intro e he
    rcases List.mem_append.mp he with hmem | hmem
    · exact h1 e hmem
    · have hfs : fs path = fs0 path := h2 path (by simpa using hb)
      simp only [List.mem_singleton] at hmem
      subst hmem
      simp [hfs]

lemma txnBackupStep_hasPath (t : MutationTransaction) (fs : FS)
    (path : List String) :
    backupHasPath (txnBackupStep t fs path).backups path = true := by
  unfold txnBackupStep
  by_cases hb : backupHasPath t.backups path = true
  · simp [hb]
  · rw [if_neg (by simp [hb])]
    simp [backupHasPath_append, backupHasPath_cons]

lemma txnBackupStep_out (fs0 : FS) (t : MutationTransaction) (fs : FS)
    (path : List String) (h2 : UntouchedOutside fs0 fs t.backups) :
    UntouchedOutside fs0 fs (txnBackupStep t fs path).backups := by
  intro q hq
  apply h2
  unfold txnBackupStep at hq
  by_cases hb : backupHasPath t.backups path = true
  · simpa [hb] using hq
  · rw [if_neg (by simp [hb])] at hq
    rw [backupHasPath_append] at hq
    exact (Bool.or_eq_false_iff.mp hq).1

lemma txnMarkChanged_backups (t : MutationTransaction) (path : List String) :
    (txnMarkChanged t path).backups = t.backups := by
  unfold txnMarkChanged
  by_cases hc : path ∈ t.changed_paths <;> simp [hc]

lemma applyOps_cons_val_error (mutation_config : MutationConfig)
    (ws : List String) (fs : FS) (t : MutationTransaction)
    (operation : MutationOperation) (rest : List MutationOperation)
    (exc : String)
    (hval : resolve_and_validate mutation_config ws operation.path
      = Except.error exc) :
    applyOps mutation_config ws fs t (operation :: rest) =
      (rollback fs (txnAddError t (operation.path ++ ": " ++ exc)),
       txnAddError t (operation.path ++ ": " ++ exc)) := by
  simp only [applyOps, hval]

lemma applyOps_cons_op_error (mutation_config : MutationConfig)
    (ws : List String) (fs : FS) (t : MutationTransaction)
    (operation : MutationOperation) (rest : List MutationOperation)
    (path : List String) (exc : String)
    (hval : resolve_and_validate mutation_config ws operation.path
      = Except.ok path)
    (happ : apply_operation fs path operation = Except.error exc) :
    applyOps mutation_config ws fs t (operation :: rest) =
      (rollback fs (txnAddError (txnBackupStep t fs path)
        (operation.path ++ ": " ++ exc)),
       txnAddError (txnBackupStep t fs path) (operation.path ++ ": " ++ exc)) := by
  simp only [applyOps, hval, happ]

lemma applyOps_cons_ok (mutation_config : MutationConfig)
    (ws : List String) (fs : FS) (t : MutationTransaction)
    (operation : MutationOperation) (rest : List MutationOperation)
    (path : List String) (fs' : FS)
    (hval : resolve_and_validate mutation_config ws operation.path
      = Except.ok path)
    (happ : apply_operation fs path operation = Except.ok fs') :
    applyOps mutation_config ws fs t (operation :: rest) =
      applyOps mutation_config ws fs' (txnMarkChanged (txnBackupStep t fs path) path)
        rest := by
  simp only [applyOps, hval, happ]

/-- The operation walk preserves the rollback invariants: backups record
pre-apply state and non-backed-up paths are untouched. -/
lemma applyOps_rollback_inv (mutation_config : MutationConfig) (ws : List String)
    (fs0 : FS) :
    ∀ (ops : List MutationOperation) (fs : FS) (t : MutationTransaction),
      BackupFaithful fs0 t.backups → UntouchedOutside fs0 fs t.backups →
      BackupFaithful fs0 (applyOps mutation_config ws fs t ops).2.backups ∧
        UntouchedOutside fs0 (applyOps mutation_config ws fs t ops).1
          (applyOps mutation_config ws fs t ops).2.backups := by
  intro ops
  induction ops with
  | nil =>
    intro fs t h1 h2
    exact ⟨h1, h2⟩
  | cons operation rest ih =>
    intro fs t h1 h2
    cases hval : resolve_and_validate mutation_config ws operation.path with
    | error exc =>
      rw [applyOps_cons_val_error mutation_config ws fs t operation rest exc hval]
      refine ⟨h1, ?_⟩
      intro q _
      exact rollbackBackups_restores fs0 t.backups fs h1 h2 q
    | ok path =>
      have ht1faith := txnBackupStep_faithful fs0 t fs path h1 h2
      have ht1out := txnBackupStep_out fs0 t fs path h2
      cases happ : apply_operation fs path operation with
      | error exc =>
        rw [applyOps_cons_op_error mutation_config ws fs t operation rest path exc
          hval happ]
        refine ⟨ht1faith, ?_⟩
        intro q _
        exact rollbackBackups_restores fs0 (txnBackupStep t fs path).backups fs
          ht1faith ht1out q
      | ok fs' =>
        rw [applyOps_cons_ok mutation_config ws fs t operation rest path fs' hval happ]
        have hout' : UntouchedOutside fs0 fs' (txnBackupStep t fs path).backups := by
          intro q hq
          have hqp : q ≠ path := by
            intro hqe
            subst hqe
            rw [txnBackupStep_hasPath t fs q] at hq
            cases hq
          rw [apply_operation_writes_only fs path operation fs' happ q hqp]
          exact ht1out q hq
        exact ih fs' (txnMarkChanged (txnBackupStep t fs path) path)
          ((txnMarkChanged_backups _ _).symm ▸ ht1faith)
          ((txnMarkChanged_backups _ _).symm ▸ hout')

/-! ## Claim theorems -/

/-- C2. For every MutationProposal, calling rollback on the transaction
returned by apply restores every backed-up path to content byte-identical
to its pre-apply state (first conjunct) and deletes every path that did not
exist before apply (second conjunct); after rollback the whole workspace is
byte-identical to its pre-apply state (third conjunct), and running
rollback a second time changes nothing further (fourth conjunct). -/
theorem mutator_apply_rollback_restores (mutation_config : MutationConfig)
    (ws : List String) (proposal : MutationProposal) (fs : FS) :
    (∀ e ∈ (apply mutation_config ws proposal fs).2.backups, e.2.1 = true →
        rollback (apply mutation_config ws proposal fs).1
          (apply mutation_config ws proposal fs).2 e.1 = some e.2.2) ∧
    (∀ e ∈ (apply mutation_config ws proposal fs).2.backups, e.2.1 = false →
        rollback (apply mutation_config ws proposal fs).1
          (apply mutation_config ws proposal fs).2 e.1 = Option.none) ∧
    (∀ q, rollback (apply mutation_config ws proposal fs).1
        (apply mutation_config ws proposal fs).2 q = fs q) ∧
    (∀ q, rollback (rollback (apply mutation_config ws proposal fs).1
          (apply mutation_config ws proposal fs).2)
        (apply mutation_config ws proposal fs).2 q = fs q) := by
  have hinv : BackupFaithful fs (apply mutation_config ws proposal fs).2.backups ∧
      UntouchedOutside fs (apply mutation_config ws proposal fs).1
        (apply mutation_config ws proposal fs).2.backups :=
    applyOps_rollback_inv mutation_config ws fs proposal.operations fs ⟨[], [], []⟩
      (fun e he => absurd he (List.not_mem_nil e)) (fun _ _ => rfl)
  have hrestore : ∀ q, rollback (apply mutation_config ws proposal fs).1
      (apply mutation_config ws proposal fs).2 q = fs q :=
    fun q => rollbackBackups_restores fs _ _ hinv.1 hinv.2 q
  have hrestore2 : ∀ q, rollback (rollback (apply mutation_config ws proposal fs).1
        (apply mutation_config ws proposal fs).2)
      (apply mutation_config ws proposal fs).2 q = fs q :=
    fun q => rollbackBackups_restores fs _ _ hinv.1 (fun q' _ => hrestore q') q
  refine ⟨?_, ?_, hrestore, hrestore2⟩
  · intro e he hex
    have hf := hinv.1 e he
    have hsome : fs e.1 = some e.2.2 := by
      cases hfse : fs e.1 with
      | none =>
        rw [hfse] at hf
        rw [hf.1] at hex
        cases hex
      | some s =>
        rw [hfse] at hf
        rw [hf.2]
        rfl
    rw [hrestore e.1, hsome]
  · intro e he hex
    have hf := hinv.1 e he
    cases hfse : fs e.1 with
    | none => rw [hrestore e.1, hfse]
    | some s =>
      rw [hfse] at hf
      rw [hf.1] at hex
      cases hex

/-- Witness for C2: a concrete write to an existing allow-listed file is
backed up, and rollback restores the original bytes. -/
theorem mutator_apply_rollback_restores_witness :
    ((["ws", "notes.md"], true, "old content")
        ∈ (apply cfgFix wsFix propWriteFix fsFix).2.backups) ∧
    rollback (apply cfgFix wsFix propWriteFix fsFix).1
      (apply cfgFix wsFix propWriteFix fsFix).2
      ["ws", "notes.md"] = some "old content" := by
  refine ⟨by decide, ?_⟩
  exact (mutator_apply_rollback_restores cfgFix wsFix propWriteFix fsFix).1
    (["ws", "notes.md"], true, "old content") (by decide) rfl

/-- C3. For every operation kind, a MutationOperation whose resolved
path escapes the workspace root, matches a deny-listed prefix, or matches
no allow-listed prefix causes apply to record an error for that operation
before any backup is taken or any file content is written for that
operation: with the offending operation first, the transaction ends with
exactly that one error, zero backups, and the filesystem unchanged. -/
theorem mutator_invalid_path_rejected (mutation_config : MutationConfig)
    (ws : List String) (fs : FS) (operation : MutationOperation)
    (rest : List MutationOperation) (rationale expected_effect : String)
    (h : ws.isPrefixOf (resolvedCandidate ws operation.path) = false ∨
      is_denied mutation_config
          (relPosix ws (resolvedCandidate ws operation.path)) = true ∨
      is_allowed mutation_config
          (relPosix ws (resolvedCandidate ws operation.path)) = false) :
    (∃ exc, (apply mutation_config ws
        ⟨rationale, expected_effect, operation :: rest⟩ fs).2.errors
        = [operation.path ++ ": " ++ exc]) ∧
    (apply mutation_config ws ⟨rationale, expected_effect, operation :: rest⟩
        fs).2.backups = [] ∧
    ∀ q, (apply mutation_config ws ⟨rationale, expected_effect, operation :: rest⟩
        fs).1 q = fs q := by
  have herr : ∃ exc, resolve_and_validate mutation_config ws operation.path
      = Except.error exc := by
    unfold resolve_and_validate
    by_cases hpre : ws.isPrefixOf (resolvedCandidate ws operation.path) = true
    · by_cases hden : is_denied mutation_config
          (relPosix ws (resolvedCandidate ws operation.path)) = true
      · refine ⟨"path is denied by mutation policy", ?_⟩
        simp [hpre, hden]
      · by_cases hall : is_allowed mutation_config
            (relPosix ws (resolvedCandidate ws operation.path)) = true
        · rcases h with h | h | h
          · rw [hpre] at h; cases h
          · exact absurd h hden
          · rw [hall] at h; cases h
        · refine ⟨"path is outside mutation allow-list", ?_⟩
          simp [hpre, hden, hall]
    · refine ⟨"path escapes workspace root", ?_⟩
      simp [hpre]
  obtain ⟨exc, hval⟩ := herr
  have hred : apply mutation_config ws
      ⟨rationale, expected_effect, operation :: rest⟩ fs =
      (rollback fs (txnAddError ⟨[], [], []⟩ (operation.path ++ ": " ++ exc)),
       txnAddError ⟨[], [], []⟩ (operation.path ++ ": " ++ exc)) :=
    applyOps_cons_val_error mutation_config ws fs ⟨[], [], []⟩ operation rest exc hval
  rw [hred]
  exact ⟨⟨exc, rfl⟩, rfl, fun q => rfl⟩

/-- Witness for C3: a `write_file` operation whose path climbs out of the
workspace is rejected with one error, no backup and no write. -/
theorem mutator_invalid_path_rejected_witness :
    (wsFix.isPrefixOf (resolvedCandidate wsFix opEscapeFix.path) = false) ∧
    (apply cfgFix wsFix ⟨"r", "e", [opEscapeFix]⟩ fsFix).2.backups = [] := by
  refine ⟨by decide, ?_⟩
  exact (mutator_invalid_path_rejected cfgFix wsFix fsFix opEscapeFix
    [] "r" "e" (Or.inl (by decide))).2.1

/-- Embedding of `charsReplaceFirst` replaces exactly the first (leftmost) literal
occurrence of `find`. -/
lemma charsReplaceFirst_spec (find repl : List Char) :
    ∀ cur : List Char, charsContains find cur = true →
      ∃ pre post, cur = pre ++ find ++ post ∧
        charsReplaceFirst find repl cur = pre ++ repl ++ post ∧
        ∀ pre' post', cur = pre' ++ find ++ post' → pre.length ≤ pre'.length := by
  intro cur
  induction cur with
  | nil =>
    intro h
    have hfind : find = [] := by
      simpa [charsContains, List.isEmpty_iff] using h
    refine ⟨[], [], by simp [hfind], by simp [charsReplaceFirst, hfind], ?_⟩
    intro pre' post' _
    simp
  | cons c t ih =>
    intro h
    by_cases hp : find.isPrefixOf (c :: t) = true
    · obtain ⟨post, hpost⟩ : ∃ post, find ++ post = c :: t :=
        List.isPrefixOf_iff_prefix.mp hp
      refine ⟨[], post, by simp [hpost], ?_, ?_⟩
      · show charsReplaceFirst find repl (c :: t) = [] ++ repl ++ post
        rw [charsReplaceFirst, if_pos hp, ← hpost, List.drop_left]
        simp
      · intro pre' post' _
        simp
    · have hcont : charsContains find t = true := by
        rw [charsContains] at h
        cases hfp : find.isPrefixOf (c :: t) with
        | true => exact absurd hfp hp
        | false =>
          rw [hfp] at h
          simpa using h
      obtain ⟨pre, post, hcur, hrep, hmin⟩ := ih hcont
      refine ⟨c :: pre, post, by simp [hcur], ?_, ?_⟩
      · show charsReplaceFirst find repl (c :: t) = (c :: pre) ++ repl ++ post
        rw [charsReplaceFirst, if_neg (by simp [hp]), hrep]
        simp
      · intro pre' post' heq
        cases pre' with
        | nil =>
          exfalso
          apply hp
          refine List.isPrefixOf_iff_prefix.mpr ⟨post', ?_⟩
          simpa using heq.symm
        | cons c2 pre2 =>
          have ht : t = pre2 ++ find ++ post' := by
            have := congrArg List.tail heq
            simpa using this
          simpa using Nat.succ_le_succ (hmin pre2 post' ht)

/-- C4. For a `replace_text` operation on a validated path: when the
`find` string is absent from the current file content, apply raises an
error on that operation, the whole transaction is rolled back, and the
target file's content on disk is unchanged from before apply was called
(first implication); when the `find` string is present, the operation
rewrites the file by replacing only the first literal occurrence (second
implication). -/
theorem mutator_replace_text_first_occurrence (mutation_config : MutationConfig)
    (ws : List String) (fs : FS) (operation : MutationOperation)
    (path : List String) (find repl : String)
    (hop : operation.op = "replace_text") (hfind : operation.find = some find)
    (hrepl : operation.replace = some repl)
    (hval : resolve_and_validate mutation_config ws operation.path
      = Except.ok path) :
    (pyContains ((fs path).getD "") find = false →
      ∀ (rest : List MutationOperation) (rationale expected_effect : String),
        (apply mutation_config ws ⟨rationale, expected_effect, operation :: rest⟩
            fs).2.errors = [operation.path ++ ": " ++ "find text not found"] ∧
        ∀ q, (apply mutation_config ws
            ⟨rationale, expected_effect, operation :: rest⟩ fs).1 q = fs q) ∧
    (pyContains ((fs path).getD "") find = true →
      apply_operation fs path operation = Except.ok
        (fsWrite fs path (some (pyReplaceFirst ((fs path).getD "") find repl))) ∧
      ∃ pre post, ((fs path).getD "").data = pre ++ find.data ++ post ∧
        (pyReplaceFirst ((fs path).getD "") find repl).data
          = pre ++ repl.data ++ post ∧
        ∀ pre' post', ((fs path).getD "").data = pre' ++ find.data ++ post' →
          pre.length ≤ pre'.length) := by
  constructor
  · intro hmiss rest rationale expected_effect
    have htext : apply_operation_text fs path operation
        = Except.error "find text not found" := by
      unfold apply_operation_text
      rw [hop, hfind, hrepl]
      simp [hmiss]
    have happ : apply_operation fs path operation
        = Except.error "find text not found" := by
      unfold apply_operation
      rw [htext]
    have hred : apply mutation_config ws
        ⟨rationale, expected_effect, operation :: rest⟩ fs =
        (rollback fs (txnAddError (txnBackupStep ⟨[], [], []⟩ fs path)
          (operation.path ++ ": " ++ "find text not found")),
         txnAddError (txnBackupStep ⟨[], [], []⟩ fs path)
          (operation.path ++ ": " ++ "find text not found")) :=
      applyOps_cons_op_error mutation_config ws fs ⟨[], [], []⟩
        operation rest path "find text not found" hval happ
    constructor
    · rw [hred]
      rfl
    · intro q
      rw [hred]
      show rollbackBackups fs [(path, (fs path).isSome, (fs path).getD "")] q = fs q
      show fsWrite fs path (if (fs path).isSome then some ((fs path).getD "")
        else Option.none) q = fs q
      rw [optionEtaIf (fs path)]
      by_cases hq : q = path
      · subst hq
        exact fsWrite_self fs q (fs q)
      · exact fsWrite_other fs path q _ hq
  · intro hpresent
    have htext : apply_operation_text fs path operation
        = Except.ok (pyReplaceFirst ((fs path).getD "") find repl) := by
      unfold apply_operation_text
      rw [hop, hfind, hrepl]
      simp [hpresent]
    constructor
    · unfold apply_operation
      rw [htext]
    · have := charsReplaceFirst_spec find.data repl.data ((fs path).getD "").data
        (by simpa [pyContains] using hpresent)
      obtain ⟨pre, post, hcur, hrep, hmin⟩ := this
      refine ⟨pre, post, hcur, ?_, hmin⟩
      show charsReplaceFirst find.data repl.data ((fs path).getD "").data
          = pre ++ repl.data ++ post
      exact hrep

/-- Witness for C4: replacing an absent string in `ws/notes.md` errors and
leaves the file intact; replacing a present string rewrites only the first
occurrence. -/
theorem mutator_replace_text_first_occurrence_witness :
    ((apply cfgFix wsFix ⟨"r", "e", [opReplaceFix]⟩ fsFix).2.errors
      = ["notes.md" ++ ": " ++ "find text not found"]) ∧
    (apply cfgFix wsFix ⟨"r", "e", [opReplaceFix]⟩ fsFix).1
      ["ws", "notes.md"] = some "old content" := by
  have h := (mutator_replace_text_first_occurrence cfgFix wsFix fsFix
    opReplaceFix ["ws", "notes.md"] "missing" "x" rfl rfl rfl rfl).1 (by decide)
    [] "r" "e"
  exact ⟨h.1, by rw [h.2 ["ws", "notes.md"]]; rfl⟩

/-- C5. With curriculum enabled, `select_batch` restricts the pool to
scenarios whose difficulty is at most `min(max difficulty in pool,
1 + epoch // 2)`, falling back to the unfiltered pool when the filter is
empty (first conjunct, with batch size 0 returning the whole eligible
pool); for a pool with difficulties `[1,2,3,4,5]` at epoch 5 the eligible
pool is exactly the scenarios with difficulty ≤ 3 (second conjunct); and
every scenario returned for any batch size is drawn from the eligible pool
(third conjunct). -/
theorem select_batch_curriculum_stage (pool : List Scenario) (epoch seed : Int)
    (hne : pool ≠ []) :
    select_batch pool 0 epoch seed true = specEligiblePool pool epoch ∧
    (pool.map (fun s => s.difficulty) = [1, 2, 3, 4, 5] → epoch = 5 →
      select_batch pool 0 epoch seed true
        = pool.filter (fun s => s.difficulty ≤ 3)) ∧
    (∀ (batch_size : Int) (s : Scenario),
      s ∈ select_batch pool batch_size epoch seed true →
      s ∈ specEligiblePool pool epoch) := by
  have hie : pool.isEmpty = false := by
    cases pool with
    | nil => exact absurd rfl hne
    | cons a t => rfl
  have hsel : ∀ batch_size : Int, select_batch pool batch_size epoch seed true =
      if batch_size ≤ 0 || ((specEligiblePool pool epoch).length : Int) ≤ batch_size
      then specEligiblePool pool epoch
      else randSample (seed + epoch) (specEligiblePool pool epoch)
        batch_size.toNat := by
    intro batch_size
    simp only [select_batch, specEligiblePool, hie, Bool.false_eq_true, if_false,
      if_true]
  have hzero : select_batch pool 0 epoch seed true = specEligiblePool pool epoch := by
    rw [hsel 0]
    simp
  refine ⟨hzero, ?_, ?_⟩
  · intro hmap hepoch
    subst hepoch
    rw [hzero]
    have hlen : pool.length = 5 := by
      have hl := congrArg List.length hmap
      simpa using hl
    rcases pool with _ | ⟨a, _ | ⟨b, _ | ⟨c, _ | ⟨d, _ | ⟨e, _ | ⟨f, t⟩⟩⟩⟩⟩⟩ <;>
      simp at hlen
    simp only [List.map_cons, List.map_nil, List.cons.injEq, and_true] at hmap
    obtain ⟨ha, hb, hc2, hd, he2⟩ := hmap
    have hmax : maxDifficulty [a, b, c, d, e] = 5 := by
      simp [maxDifficulty, ha, hb, hc2, hd, he2]
    unfold specEligiblePool
    rw [hmax]
    have hceil : min (5 : Int) (1 + Int.fdiv 5 2) = 3 := by decide
    rw [hceil]
    simp [List.filter, ha, hb, hc2, hd, he2]
  · intro batch_size s hs
    rw [hsel batch_size] at hs
    by_cases hcond : (batch_size ≤ 0 ||
        ((specEligiblePool pool epoch).length : Int) ≤ batch_size) = true
    · rwa [if_pos hcond] at hs
    · rw [if_neg hcond] at hs
      exact sampleAux_subset _ _ _ s hs

/-- Witness for C5: the fixture pool with difficulties `[1,2,3,4,5]` at
epoch 5 yields exactly the scenarios of difficulty ≤ 3. -/
theorem select_batch_curriculum_stage_witness :
    select_batch poolFix 0 5 7 true = poolFix.filter (fun s => s.difficulty ≤ 3) :=
  (select_batch_curriculum_stage poolFix 5 7 (by decide)).2.1 (by decide) rfl

/-- C8. `select_batch` is a pure, deterministic function: two calls
with identical pool contents and order, batch size, epoch, seed and
curriculum flag return identical ordered lists. -/
theorem select_batch_deterministic (pool₁ pool₂ : List Scenario)
    (n₁ n₂ e₁ e₂ s₁ s₂ : Int) (c₁ c₂ : Bool)
    (hp : pool₁ = pool₂) (hn : n₁ = n₂) (he : e₁ = e₂) (hs : s₁ = s₂)
    (hc : c₁ = c₂) :
    select_batch pool₁ n₁ e₁ s₁ c₁ = select_batch pool₂ n₂ e₂ s₂ c₂ := by
  subst hp
  subst hn
  subst he
  subst hs
  subst hc
  rfl

/-- Witness for C8: two identical calls on the fixture pool coincide. -/
theorem select_batch_deterministic_witness :
    select_batch poolFix 2 3 7 true = select_batch poolFix 2 3 7 true :=
  select_batch_deterministic poolFix poolFix 2 2 3 3 7 7 true true
    rfl rfl rfl rfl rfl

/-- C1. For every ScenarioResult produced by `score_execution`: when
`hard_pass` is false the fitness is 0; otherwise the fitness equals
`max(0, judge_score - 8 * number of machine policy violations)`, where the
result's `judge_score` already carries any unavailability penalty
deduction. -/
theorem score_execution_fitness (execution : ScenarioExecution) (probe : Probe)
    (judge_payload : JudgePayload) (required_skill_paths : List String)
    (minimum_skill_reads : Int)
    (enforce_skill_hydration hard_fail_missing_skills : Bool) :
    ((score_execution execution probe judge_payload required_skill_paths
        minimum_skill_reads enforce_skill_hydration
        hard_fail_missing_skills).hard_pass = false →
      (score_execution execution probe judge_payload required_skill_paths
        minimum_skill_reads enforce_skill_hydration
        hard_fail_missing_skills).fitness = 0) ∧
    ((score_execution execution probe judge_payload required_skill_paths
        minimum_skill_reads enforce_skill_hydration
        hard_fail_missing_skills).hard_pass = true →
      (score_execution execution probe judge_payload required_skill_paths
        minimum_skill_reads enforce_skill_hydration
        hard_fail_missing_skills).fitness =
        max 0 ((score_execution execution probe judge_payload required_skill_paths
          minimum_skill_reads enforce_skill_hydration
          hard_fail_missing_skills).judge_score -
          8 * ((machine_penalty execution required_skill_paths minimum_skill_reads
            enforce_skill_hydration hard_fail_missing_skills).1.length : ℚ))) := by
  constructor
  · intro h
    simp only [score_execution] at h ⊢
    rw [h]
    simp
  · intro h
    simp only [score_execution] at h ⊢
    rw [h]
    simp

/-- Witness for C1: a probe-level hard failure zeroes the fitness. -/
theorem score_execution_fitness_witness :
    (score_execution execFix probeFailFix payloadFix [] 0 false
        true).hard_pass = false ∧
    (score_execution execFix probeFailFix payloadFix [] 0 false
        true).fitness = 0 := by
  have h : (score_execution execFix probeFailFix payloadFix [] 0 false
      true).hard_pass = false := by
    simp [score_execution, execFix, probeFailFix, probeFix, payloadFix]
  exact ⟨h, (score_execution_fitness execFix probeFailFix payloadFix [] 0 false
    true).1 h⟩

/-- C10. A provider-blocked execution always scores with
`hard_pass = false` (hence fitness 0) regardless of the probe's hard-pass
flag, judge hard failures, or hydration status, and its
`validation_confidence` is at most 0.2. -/
theorem score_execution_provider_blocked (execution : ScenarioExecution)
    (probe : Probe) (judge_payload : JudgePayload)
    (required_skill_paths : List String) (minimum_skill_reads : Int)
    (enforce_skill_hydration hard_fail_missing_skills : Bool)
    (hpb : execution.provider_blocked = true) :
    (score_execution execution probe judge_payload required_skill_paths
      minimum_skill_reads enforce_skill_hydration
      hard_fail_missing_skills).hard_pass = false ∧
    (score_execution execution probe judge_payload required_skill_paths
      minimum_skill_reads enforce_skill_hydration
      hard_fail_missing_skills).fitness = 0 ∧
    (score_execution execution probe judge_payload required_skill_paths
      minimum_skill_reads enforce_skill_hydration
      hard_fail_missing_skills).validation_confidence ≤ 2 / 10 := by
  simp only [score_execution, hpb]
  refine ⟨by simp, by simp, ?_⟩
  split
  · exact le_trans (min_le_left _ _) (min_le_right _ _)
  · split
    · exact le_trans (min_le_left _ _) (min_le_right _ _)
    · exact min_le_right _ _

/-- Witness for C10: the blocked fixture execution scores zero fitness. -/
theorem score_execution_provider_blocked_witness :
    execBlockedFix.provider_blocked = true ∧
    (score_execution execBlockedFix probeFix payloadFix [] 0 false
        true).fitness = 0 :=
  ⟨rfl, (score_execution_provider_blocked execBlockedFix probeFix payloadFix [] 0
    false true rfl).2.1⟩

/-- C7. A judge payload missing the `dimensions` key is invalid (first
conjunct); every invalid payload is replaced by the sentinel payload
(second conjunct); and scoring the sentinel payload uses the deterministic
heuristic fallback computed from probe facts, appends the fallback strength
note, and clears `hard_failures` so that `hard_pass` depends only on the
probe flag and hydration (third conjunct, stated without unavailability
penalties so the fallback score is visible unchanged). -/
theorem judge_invalid_payload_fallback :
    (∀ entries : List (String × PyVal),
      lookupDict entries "dimensions" = Option.none →
      is_valid_judge_payload (PyVal.dict entries) = false) ∧
    (∀ parsed : PyVal, is_valid_judge_payload parsed = false →
      finalJudgePayload parsed = sentinelJudgeDict) ∧
    (∀ (execution : ScenarioExecution) (probe : Probe)
        (required_skill_paths : List String) (minimum_skill_reads : Int)
        (enforce_skill_hydration hard_fail_missing_skills : Bool),
      execution.provider_blocked = false →
      execution.fallback_only_mode = false →
      execution.fallback_used = false →
      (score_execution execution probe sentinelJudgePayload required_skill_paths
          minimum_skill_reads enforce_skill_hydration
          hard_fail_missing_skills).judge_score
        = (fallback_judge_score execution probe).1 ∧
      (score_execution execution probe sentinelJudgePayload required_skill_paths
          minimum_skill_reads enforce_skill_hydration
          hard_fail_missing_skills).dimensions
        = (fallback_judge_score execution probe).2 ∧
      (score_execution execution probe sentinelJudgePayload required_skill_paths
          minimum_skill_reads enforce_skill_hydration
          hard_fail_missing_skills).strengths
        = ["Heuristic fallback scoring maintained autonomous loop continuity."] ∧
      (score_execution execution probe sentinelJudgePayload required_skill_paths
          minimum_skill_reads enforce_skill_hydration
          hard_fail_missing_skills).hard_pass
        = (probe.hard_pass &&
            !(machine_penalty execution required_skill_paths minimum_skill_reads
              enforce_skill_hydration hard_fail_missing_skills).2)) := by
  refine ⟨?_, ?_, ?_⟩
  · intro entries h
    simp [is_valid_judge_payload, h]
  · intro parsed h
    simp [finalJudgePayload, h]
  · intro execution probe required_skill_paths minimum_skill_reads
      enforce_skill_hydration hard_fail_missing_skills hpb hfo hfu
    simp [score_execution, sentinelJudgePayload, hpb, hfo, hfu]

/-- Witness for C7: the empty dict is invalid, and scoring the sentinel on
the clean fixture yields the fallback strength note. -/
theorem judge_invalid_payload_fallback_witness :
    is_valid_judge_payload (PyVal.dict []) = false ∧
    (score_execution execFix probeFix sentinelJudgePayload [] 0 false
        true).strengths
      = ["Heuristic fallback scoring maintained autonomous loop continuity."] :=
  ⟨judge_invalid_payload_fallback.1 [] rfl,
   (judge_invalid_payload_fallback.2.2 execFix probeFix [] 0 false true
     rfl rfl rfl).2.2.1⟩

/-- C6. In normal-mode decision making, whenever the earlier gates pass
(meaningful eligible diff present, fallback gate ok, provider-block gate
ok, dimension floor ok, candidate hard-pass rate 1.0) and the candidate
holdout score is strictly below the baseline holdout score minus the
configured regression tolerance, the Decision is rejected with reason
"candidate regressed holdout score". -/
theorem decide_regressed_holdout (config : DecisionConfig)
    (baseline candidate : EvaluationSnapshot) (runtime_touched : Bool)
    (candidate_delta : CandidateDelta) (provisional_accepts : Int)
    (hdiff : candidate_delta.has_required_evolution_diff = true)
    (hfb : (build_objective_progress baseline candidate
      config.objectives.min_dimension_improvement
      config.objectives.max_dimension_regression
      config.objectives.min_fallback_reduction
      config.objectives.max_fallback_increase).fallback_gate_ok = true)
    (hpb : (build_objective_progress baseline candidate
      config.objectives.min_dimension_improvement
      config.objectives.max_dimension_regression
      config.objectives.min_fallback_reduction
      config.objectives.max_fallback_increase).provider_block_gate_ok = true)
    (hdim : (build_objective_progress baseline candidate
      config.objectives.min_dimension_improvement
      config.objectives.max_dimension_regression
      config.objectives.min_fallback_reduction
      config.objectives.max_fallback_increase).dimension_floor_ok = true)
    (hhp : candidate.hard_pass_rate = 1)
    (hreg : candidate.holdout_score <
      baseline.holdout_score - config.mutation.holdout_regression_tolerance) :
    (decide_outcome config baseline candidate runtime_touched candidate_delta
      false provisional_accepts).accepted = false ∧
    (decide_outcome config baseline candidate runtime_touched candidate_delta
      false provisional_accepts).reason = "candidate regressed holdout score" := by
  simp [decide_outcome, hdiff, hfb, hpb, hdim, hhp, hreg]

/-- Witness for C6: baseline holdout 80, candidate holdout 79, regression
tolerance 0 is rejected with reason "candidate regressed holdout score". -/
theorem decide_regressed_holdout_witness :
    ((snapFix 79).holdout_score < (snapFix 80).holdout_score -
      decisionCfgFix.mutation.holdout_regression_tolerance) ∧
    (decide_outcome decisionCfgFix (snapFix 80) (snapFix 79) false deltaFix
      false 0).accepted = false ∧
    (decide_outcome decisionCfgFix (snapFix 80) (snapFix 79) false deltaFix
      false 0).reason = "candidate regressed holdout score" := by
  have hreg : (snapFix 79).holdout_score < (snapFix 80).holdout_score -
      decisionCfgFix.mutation.holdout_regression_tolerance := by
    norm_num [snapFix, decisionCfgFix]
  have hgate := decide_regressed_holdout decisionCfgFix (snapFix 80) (snapFix 79)
    false deltaFix 0 rfl
    (by norm_num [build_objective_progress, objective_metrics, mget, mset,
      SCORE_DIMENSIONS, snapFix, decisionCfgFix])
    (by norm_num [build_objective_progress, objective_metrics, mget, mset,
      SCORE_DIMENSIONS, snapFix, decisionCfgFix])
    (by norm_num [build_objective_progress, objective_metrics, mget, mset,
      SCORE_DIMENSIONS, snapFix, decisionCfgFix])
    rfl hreg
  exact ⟨hreg, hgate.1, hgate.2⟩

/-- C9 counterexample. At a concrete input where the non-continuous
epoch cap is exceeded and the stop file exists simultaneously,
`_stop_reason` reports "max-epochs-reached", not the stop signal the
claim's precedence order (stop signal first) would require. -/
theorem stop_reason_precedence_counterexample :
    stop_reason ⟨false, 1, 0, 0⟩ true 0 2 0 = "max-epochs-reached" ∧
    stop_reason ⟨false, 1, 0, 0⟩ true 0 2 0 ≠ "stop-file-triggered" := by
  constructor
  · rfl
  · decide

/-- C9 amended. Stop conditions are checked once per epoch boundary by
`_stop_reason` in this precedence order: the epoch cap in non-continuous
mode first (also firing when `max_epochs ≤ 0` and any epoch has completed),
then the explicit stop signal, then the wall-clock budget, then the
stagnant-epoch cap, and, only in continuous mode, the epoch cap last; the
provider-permanently-blocked stop is raised separately inside the epoch
body, not by this boundary check.  When several conditions hold, the
reported reason is the first in this order. -/
theorem stop_reason_order (config : StopConfig) (stop_file_exists : Bool)
    (elapsed epoch stagnant_epochs : Int) :
    stop_reason config stop_file_exists elapsed epoch stagnant_epochs =
      specStopReasonOrder config stop_file_exists elapsed epoch stagnant_epochs := by
  unfold stop_reason specStopReasonOrder
  by_cases hc : config.continuous
  · simp [hc]
  · by_cases h1 : config.max_epochs ≤ 0
    · by_cases h2 : (0 : Int) < epoch
      · simp [hc, h1, h2]
      · simp [hc, h1, h2, not_lt.mp (by omega : ¬config.max_epochs > 0)]
    · by_cases h2 : config.max_epochs < epoch
      · simp [hc, h1, h2, not_le.mp h1]
      · simp [hc, h1, h2]

end DiaSync
